import Mathlib

/-!
Shallow embedding of the `init-tp` CLI scaffolder (src/index.ts).

The program is a sequential pipeline: the commander `program.action`
validates the `--compiler` / `--package-manager` flag values, pre-resolves
`runInstall`, and calls `initProject`, which prompts for the missing
fields (inquirer), merges flags with answers via JavaScript `??`
(nullish coalescing), renders the project files, writes them under
`cwd/projectName`, and optionally shells out to the package manager's
install command.

Modelling conventions:
- run-time values of `compiler` / `packageManager` are `String`s (the TS
  union types are erased at run time and the code branches by string
  comparison with an `else` fall-through);
- absent flag values are `Option` (`none` = JS `undefined`);
- JS truthiness of an optional string (`if (!options.x)`) is `jsTruthy`:
  `none` and `some ""` are falsy;
- file-system paths are lists of segments; `path.join(dir, seg)` with a
  literal segment (no separators, no dots) is `dir ++ [seg]`;
- the observable behaviour of a run is a list of `Event`s in program
  order: prompts, directory creation, file writes, console messages,
  the spawned install command and `process.exit` codes.
-/

namespace InitTp

/-- JS truthiness of an optional string: `undefined` and `""` are falsy. -/
def jsTruthy : Option String → Bool
  | none => false
  | some s => !s.isEmpty

/-- `const validCompilers = ['tsc', 'esbuild', 'swc']` (src/index.ts:19). -/
def validCompilers : List String := ["tsc", "esbuild", "swc"]

/-- `const validPackageManagers = ['npm', 'pnpm']` (src/index.ts:20). -/
def validPackageManagers : List String := ["npm", "pnpm"]

/-- The `Partial<Answers>` options record passed to `initProject`
(src/index.ts:22); `none` models a field left `undefined`. -/
structure PartialAnswers where
  projectName : Option String := none
  compiler : Option String := none
  packageManager : Option String := none
  runInstall : Option Bool := none
deriving DecidableEq, Repr

/-- The answers the user would give to the inquirer prompts (the prompt
oracle); a field is only consulted when its question was asked. -/
structure PromptAnswers where
  projectName : String
  compiler : String
  packageManager : String
  runInstall : Bool
deriving DecidableEq, Repr

/-- The resolved `finalAnswers` record (src/index.ts:70-75). The TS type
declares `runInstall : boolean`, but when the question is skipped and no
flag was given, `options.runInstall ?? answers.runInstall` evaluates to
`undefined`; we keep `Option Bool` and test JS-truthiness (`= some true`)
where the code tests `if (finalAnswers.runInstall)`. -/
structure Answers where
  projectName : String
  compiler : String
  packageManager : String
  runInstall : Option Bool
deriving DecidableEq, Repr

/-! ## Interactive project-name validation (src/index.ts:30-34) -/

/-- Code points of the ECMA-262 `String.prototype.trim` whitespace set
(WhiteSpace ∪ LineTerminator). -/
def isJsWhitespace (c : Char) : Bool :=
  decide (c.toNat = 32 ∨ c.toNat = 9 ∨ c.toNat = 10 ∨ c.toNat = 11 ∨
    c.toNat = 12 ∨ c.toNat = 13 ∨ c.toNat = 160 ∨ c.toNat = 0x1680 ∨
    (0x2000 ≤ c.toNat ∧ c.toNat ≤ 0x200a) ∨ c.toNat = 0x2028 ∨
    c.toNat = 0x2029 ∨ c.toNat = 0x202f ∨ c.toNat = 0x205f ∨
    c.toNat = 0x3000 ∨ c.toNat = 0xfeff)

/-- JS `String.prototype.trim`: strip leading and trailing whitespace. -/
def jsTrim (l : List Char) : List Char :=
  ((l.dropWhile isJsWhitespace).reverse.dropWhile isJsWhitespace).reverse

/-- Membership in the regex character class `[a-z0-9-]`. -/
def isNameChar (c : Char) : Bool :=
  decide ((97 ≤ c.toNat ∧ c.toNat ≤ 122) ∨ (48 ≤ c.toNat ∧ c.toNat ≤ 57) ∨
    c.toNat = 45)

/-- `/^[a-z0-9-]+$/.test(input)` (src/index.ts:32): at least one
character, all of them in the class. -/
def nameRegexTest (s : String) : Bool :=
  !s.data.isEmpty && s.data.all isNameChar

/-- Result of an inquirer `validate` callback: `true`, or an error
message that re-prompts. -/
inductive ValidateResult
  | ok
  | err (msg : String)
deriving DecidableEq, Repr

/-- The `validate` callback of the project-name question
(src/index.ts:30-34). -/
def validateProjectName (input : String) : ValidateResult :=
  if jsTrim input.data = [] then
    .err "Project name cannot be empty."
  else if !nameRegexTest input then
    .err "Project name must be lowercase, alphanumeric, and may include hyphens."
  else
    .ok

/-! ## Question selection and answer resolution (src/index.ts:25-75) -/

/-- The runInstall confirmation question's `default: true`
(src/index.ts:64). -/
def runInstallDefault : Bool := true

/-- Condition of src/index.ts:59: prompt for `runInstall` only when it is
`undefined` and not both `projectName` and `compiler` are (truthily)
present. -/
def askRunInstall (o : PartialAnswers) : Bool :=
  o.runInstall = none && !(jsTruthy o.projectName && jsTruthy o.compiler)

/-- Merge flags with prompt answers (src/index.ts:70-75); `x ?? y` on an
optional string is `Option.getD` (note `some ""` wins over the prompt
answer, since `""` is not nullish). -/
def resolveAnswers (o : PartialAnswers) (ans : PromptAnswers) : Answers where
  projectName := o.projectName.getD ans.projectName
  compiler := o.compiler.getD ans.compiler
  packageManager := o.packageManager.getD ans.packageManager
  runInstall :=
    match o.runInstall with
    | some b => some b
    | none => if askRunInstall o then some ans.runInstall else none

/-! ## Template rendering (src/index.ts:86-158) -/

/-- `getNpxCommand` (src/index.ts:86-93). -/
def getNpxCommand (packageManager : String) : String :=
  if packageManager = "pnpm" then "pnpx init-tp" else "npx init-tp"

/-- `readmeContent` (src/index.ts:95-97). -/
def readmeContent (projectName packageManager : String) : String :=
  "# " ++ projectName ++ "\n\nCreated using [" ++ getNpxCommand packageManager
    ++ "](https://github.com/ge0rg3e/init-tp)"

/-- `buildScript` ternary chain (src/index.ts:99). -/
def buildScript (compiler : String) : String :=
  if compiler = "tsc" then "tsc"
  else if compiler = "esbuild" then
    "esbuild src/index.ts --bundle --platform=node --outfile=dist/index.js"
  else "swc src -d dist"

/-- `startScript` (src/index.ts:101). -/
def startScript (compiler : String) : String :=
  if compiler = "swc" then "node dist/src/index.js" else "node dist/index.js"

/-- `devScript` (src/index.ts:102). -/
def devScript : String := "tsx watch src/index.ts"

/-- Result of `getPackageManagerConfig` (src/index.ts:105-123). -/
structure PMConfig where
  packageManager : String
  enginesNode : String
  packageManagerFiles : List (String × String)
deriving DecidableEq, Repr

/-- `getPackageManagerConfig` (src/index.ts:105-123): pnpm adds `.npmrc`
and `pnpm-workspace.yaml`; the `default` branch (npm) adds none. -/
def getPackageManagerConfig (pm : String) : PMConfig :=
  if pm = "pnpm" then
    { packageManager := "pnpm"
      enginesNode := ">=16.0.0"
      packageManagerFiles :=
        [(".npmrc", "auto-install-peers=true\nstrict-peer-dependencies=false"),
         ("pnpm-workspace.yaml", "packages:\n  - \".\"")] }
  else
    { packageManager := "npm"
      enginesNode := ">=16.0.0"
      packageManagerFiles := [] }

/-- The `scripts` object of the rendered manifest. -/
structure Scripts where
  start : String
  build : String
  dev : String
deriving DecidableEq, Repr

/-- The rendered `package.json` object (src/index.ts:127-145); dependency
maps are association lists in source order. -/
structure PackageJson where
  name : String
  version : String
  main : String
  packageManager : String
  enginesNode : String
  scripts : Scripts
  dependencies : List (String × String)
  devDependencies : List (String × String)
  initTp : String
deriving DecidableEq, Repr

/-- The `devDependencies` object (src/index.ts:139-143): a per-compiler
spread followed by the two always-present tooling deps. -/
def devDependencies (compiler : String) : List (String × String) :=
  (if compiler = "tsc" then [("typescript", "^5.8.3")]
   else if compiler = "esbuild" then [("esbuild", "^0.25.5")]
   else [("@swc/cli", "^0.7.7"), ("@swc/core", "^1.12.9")])
  ++ [("@types/node", "^24.0.10"), ("tsx", "^4.20.3")]

/-- The rendered manifest (src/index.ts:127-145); `ver` is the
generator's own `packageVersion`. -/
def packageJson (a : Answers) (ver : String) : PackageJson where
  name := a.projectName
  version := "0.0.1"
  main := "dist/index.js"
  packageManager := (getPackageManagerConfig a.packageManager).packageManager
  enginesNode := (getPackageManagerConfig a.packageManager).enginesNode
  scripts := ⟨startScript a.compiler, buildScript a.compiler, devScript⟩
  dependencies := []
  devDependencies := devDependencies a.compiler
  initTp := "v" ++ ver

/-- The rendered `tsconfig.json` (src/index.ts:147-158), identical for
every configuration. -/
structure TsConfig where
  target : String
  lib : List String
  module : String
  outDir : String
  rootDir : String
  strict : Bool
  esModuleInterop : Bool
  skipLibCheck : Bool
deriving DecidableEq, Repr

/-- `tsConfig` value (src/index.ts:147-158). -/
def tsConfig : TsConfig where
  target := "es2017"
  lib := ["es2017", "dom"]
  module := "commonjs"
  outDir := "./dist"
  rootDir := "./src"
  strict := true
  esModuleInterop := true
  skipLibCheck := true

/-- `gitignoreContent` (src/index.ts:83). -/
def gitignoreContent : String := "node_modules/\ndist/\n.env"

/-- Content of `src/index.ts` in the generated project
(src/index.ts:165). -/
def indexContent : String :=
  "// Your TypeScript code here\nconsole.log(\"Hello, World!\");"

/-- Content written to a file: structured JSON for the two `writeJson`
calls, plain text for `writeFile`. -/
inductive FileContent
  | jsonPkg (p : PackageJson)
  | jsonTs (t : TsConfig)
  | text (s : String)
deriving DecidableEq, Repr

/-- All (absolute path, content) pairs written by `initProject`
(src/index.ts:160-170), in write order; `cwd` is `process.cwd()` as a
segment list and the project directory is `cwd ++ [projectName]`
(src/index.ts:77). -/
def renderedFiles (cwd : List String) (a : Answers) (ver : String) :
    List (List String × FileContent) :=
  let projectDir := cwd ++ [a.projectName]
  [(projectDir ++ ["package.json"], .jsonPkg (packageJson a ver)),
   (projectDir ++ ["tsconfig.json"], .jsonTs tsConfig),
   (projectDir ++ [".gitignore"], .text gitignoreContent),
   (projectDir ++ ["README.md"], .text (readmeContent a.projectName a.packageManager)),
   ((projectDir ++ ["src"]) ++ ["index.ts"], .text indexContent)]
  ++ (getPackageManagerConfig a.packageManager).packageManagerFiles.map
      (fun fc => (projectDir ++ [fc.1], .text fc.2))

/-! ## Install command and run trace (src/index.ts:160-192) -/

/-- The `installCommand` ternary chain (src/index.ts:175-182), including
its `yarn` and `bun` branches, which the `PackageManager` type makes
dead code. -/
def installCommand (pm : String) : String :=
  if pm = "npm" then "npm install"
  else if pm = "pnpm" then "pnpm install"
  else if pm = "yarn" then "yarn install"
  else "bun install"

/-- One observable step of a run. -/
inductive Event
  | ask (question : String)
  | ensureDir (path : List String)
  | write (path : List String) (content : FileContent)
  | runInstall (cmd : String)
  | logMsg (msg : String)
  | errorMsg (msg : String)
  | exitCode (code : Nat)
deriving DecidableEq, Repr

/-- The final success message (src/index.ts:191); `path.join` rendered
with `/`. -/
def successMsg (cwd : List String) (a : Answers) : String :=
  "✅ Project \x27" ++ a.projectName ++ "\x27 initialized in "
    ++ String.intercalate "/" (cwd ++ [a.projectName]) ++ " using "
    ++ a.compiler ++ " and " ++ a.packageManager ++ "."

/-- Events of the install block (src/index.ts:172-189): log, spawn, and
on a non-zero child exit report the error (naming the package manager)
and `process.exit(1)`. -/
def installEvents (a : Answers) (installFails : Bool) : List Event :=
  if a.runInstall = some true then
    [.logMsg ("Running " ++ a.packageManager ++ " install..."),
     .runInstall (installCommand a.packageManager)]
    ++ (if installFails then
          [.errorMsg ("Error running " ++ a.packageManager ++ " install:"),
           .exitCode 1]
        else [])
  else []

/-- The effect phase of `initProject` on resolved answers
(src/index.ts:160-192): create `src/`, write every rendered file, then
optionally install; `process.exit(1)` inside the catch suppresses the
final success log. -/
def runTrace (cwd : List String) (a : Answers) (ver : String)
    (installFails : Bool) : List Event :=
  [.ensureDir ((cwd ++ [a.projectName]) ++ ["src"])]
  ++ (renderedFiles cwd a ver).map (fun pc => .write pc.1 pc.2)
  ++ installEvents a installFails
  ++ (if a.runInstall = some true ∧ installFails then []
      else [.logMsg (successMsg cwd a)])

/-- The `ask` events of `inquirer.prompt` in question order
(src/index.ts:25-66). -/
def promptEvents (o : PartialAnswers) : List Event :=
  (if jsTruthy o.projectName then [] else [.ask "projectName"])
  ++ (if jsTruthy o.compiler then [] else [.ask "compiler"])
  ++ (if jsTruthy o.packageManager then [] else [.ask "packageManager"])
  ++ (if askRunInstall o then [.ask "runInstall"] else [])

/-- Full `initProject` trace: prompts, then effects
(src/index.ts:22-192). -/
def initProjectTrace (cwd : List String) (o : PartialAnswers)
    (ans : PromptAnswers) (ver : String) (installFails : Bool) : List Event :=
  promptEvents o ++ runTrace cwd (resolveAnswers o ans) ver installFails

/-! ## CLI entry point (src/index.ts:194-237) -/

/-- Error message for an invalid `--compiler` value (src/index.ts:204). -/
def invalidCompilerMsg (v : String) : String :=
  "\x1b[31mError:\x1b[0m Invalid compiler \x27" ++ v
    ++ "\x27. Choose one of: " ++ String.intercalate ", " validCompilers

/-- Error message for an invalid `--package-manager` value
(src/index.ts:209). -/
def invalidPackageManagerMsg (v : String) : String :=
  "\x1b[31mError:\x1b[0m Invalid package manager \x27" ++ v
    ++ "\x27. Choose one of: " ++ String.intercalate ", " validPackageManagers

/-- The flag validation of `program.action` (src/index.ts:203-211):
`options.compiler && !validCompilers.includes(...)` — note the truthiness
guard, under which an empty-string flag value is never checked. The
positional `projectName` is not validated here at all. -/
def flagError (o : PartialAnswers) : Option String :=
  if jsTruthy o.compiler && !(validCompilers.contains (o.compiler.getD "")) then
    some (invalidCompilerMsg (o.compiler.getD ""))
  else if jsTruthy o.packageManager
      && !(validPackageManagers.contains (o.packageManager.getD "")) then
    some (invalidPackageManagerMsg (o.packageManager.getD ""))
  else none

/-- `allOptionsProvided = projectName && options.compiler`
(src/index.ts:213), by JS truthiness. -/
def allOptionsProvided (o : PartialAnswers) : Bool :=
  jsTruthy o.projectName && jsTruthy o.compiler

/-- The action's pre-resolution of `runInstall` (src/index.ts:215-224):
when both `projectName` and `compiler` were supplied and `--install` was
not, default `runInstall` to `false` before calling `initProject`. -/
def finalOptions (o : PartialAnswers) : PartialAnswers :=
  { o with runInstall :=
      if allOptionsProvided o = true ∧ o.runInstall = none then some false
      else o.runInstall }

/-- Trace of the whole `program.action` (src/index.ts:201-235): reject an
invalid flag value with its message and `process.exit(1)` before any
prompting or file I/O; otherwise run `initProject` on the pre-resolved
options. -/
def cliTrace (cwd : List String) (o : PartialAnswers) (ans : PromptAnswers)
    (ver : String) (installFails : Bool) : List Event :=
  match flagError o with
  | some m => [.errorMsg m, .exitCode 1]
  | none => initProjectTrace cwd (finalOptions o) ans ver installFails

/-! ## Auxiliary predicates used in the statements -/

/-- An event touches only paths inside `dir` (writes and directory
creation are the only path-bearing events). -/
def eventInside (dir : List String) : Event → Bool
  | .write p _ => dir.isPrefixOf p
  | .ensureDir p => dir.isPrefixOf p
  | _ => true

/-- The `--compiler` flag value clears the action's validation: it is
either not truthy or a member of `validCompilers`. -/
def compilerFlagPasses (c : Option String) : Bool :=
  !jsTruthy c || validCompilers.contains (c.getD "")

/-- The `--package-manager` flag value clears the action's validation. -/
def packageManagerFlagPasses (p : Option String) : Bool :=
  !jsTruthy p || validPackageManagers.contains (p.getD "")

end InitTp

namespace InitTp

/-! ## Helper lemmas -/

theorem dropWhile_eq_self_of_none (p : Char → Bool) (l : List Char)
    (h : ∀ c ∈ l, p c = false) : l.dropWhile p = l := by
  cases l with
  | nil => rfl
  | cons c t =>
    rw [List.dropWhile_cons]
    simp [h c (List.mem_cons_self c t)]

theorem nameChar_not_ws (c : Char) (h : isNameChar c = true) :
    isJsWhitespace c = false := by
  unfold isNameChar at h
  unfold isJsWhitespace
  rw [decide_eq_true_iff] at h
  rw [decide_eq_false_iff_not]
  omega

theorem jsTrim_eq_self_of_nameChars (l : List Char)
    (h : ∀ c ∈ l, isNameChar c = true) : jsTrim l = l := by
  have hws : ∀ c ∈ l, isJsWhitespace c = false :=
    fun c hc => nameChar_not_ws c (h c hc)
  unfold jsTrim
  rw [dropWhile_eq_self_of_none _ _ hws,
      dropWhile_eq_self_of_none _ _ (fun c hc => hws c (List.mem_reverse.mp hc)),
      List.reverse_reverse]

theorem flagError_eq_none (o : PartialAnswers)
    (hc : compilerFlagPasses o.compiler = true)
    (hp : packageManagerFlagPasses o.packageManager = true) :
    flagError o = none := by
  unfold flagError
  unfold compilerFlagPasses at hc
  unfold packageManagerFlagPasses at hp
  rcases Bool.or_eq_true_iff.mp hc with h | h <;>
    rcases Bool.or_eq_true_iff.mp hp with h2 | h2 <;>
      simp_all

/-! ## Claims -/

theorem nameRegexTest_eq_true_iff (s : String) :
    nameRegexTest s = true ↔ (s.data ≠ [] ∧ s.data.all isNameChar = true) := by
  simp [nameRegexTest]

/-- Claim C8: on the interactive path, the project-name `validate`
callback accepts exactly the non-empty strings all of whose characters
lie in `[a-z0-9-]` (equivalently, the strings matching `^[a-z0-9-]+$`),
and every rejected string yields a validation failure message. -/
theorem resolver_validates_project_name (s : String) :
    (validateProjectName s = .ok ↔
      (s.data ≠ [] ∧ s.data.all isNameChar = true)) ∧
    (validateProjectName s ≠ .ok → ∃ m, validateProjectName s = .err m) := by
  constructor
  · unfold validateProjectName
    by_cases h1 : jsTrim s.data = []
    · rw [if_pos h1]
      constructor
      · intro h; cases h
      · rintro ⟨hne, hall⟩
        rw [jsTrim_eq_self_of_nameChars s.data (List.all_eq_true.mp hall)] at h1
        exact absurd h1 hne
    · rw [if_neg h1, ← nameRegexTest_eq_true_iff]
      cases h2 : nameRegexTest s
      · simp [h2]
      · simp [h2]
  · intro h
    cases heq : validateProjectName s with
    | ok => exact absurd heq h
    | err m => exact ⟨m, rfl⟩

/-- Witness for C8 at concrete inputs. -/
theorem resolver_validates_project_name_witness :
    (validateProjectName "my-app" = .ok ↔
      (("my-app" : String).data ≠ [] ∧
        ("my-app" : String).data.all isNameChar = true)) ∧
    (validateProjectName "my-app" ≠ .ok →
      ∃ m, validateProjectName "my-app" = .err m) :=
  resolver_validates_project_name "my-app"

/-- Claim C4: for every resolved configuration, the manifest's `start`,
`build` and `dev` scripts and its dev-dependency set are exactly the
fixed per-compiler mapping: `build` is `tsc` / the esbuild bundle
command / `swc src -d dist`; `start` is `node dist/src/index.js` for swc
and `node dist/index.js` otherwise; dev deps are the compiler's own
packages plus `@types/node` and `tsx`. -/
theorem manifest_scripts_and_devdeps (name pm : String) (ri : Option Bool)
    (ver : String) :
    (packageJson ⟨name, "tsc", pm, ri⟩ ver).scripts =
      ⟨"node dist/index.js", "tsc", "tsx watch src/index.ts"⟩ ∧
    (packageJson ⟨name, "tsc", pm, ri⟩ ver).devDependencies =
      [("typescript", "^5.8.3"), ("@types/node", "^24.0.10"), ("tsx", "^4.20.3")] ∧
    (packageJson ⟨name, "esbuild", pm, ri⟩ ver).scripts =
      ⟨"node dist/index.js",
       "esbuild src/index.ts --bundle --platform=node --outfile=dist/index.js",
       "tsx watch src/index.ts"⟩ ∧
    (packageJson ⟨name, "esbuild", pm, ri⟩ ver).devDependencies =
      [("esbuild", "^0.25.5"), ("@types/node", "^24.0.10"), ("tsx", "^4.20.3")] ∧
    (packageJson ⟨name, "swc", pm, ri⟩ ver).scripts =
      ⟨"node dist/src/index.js", "swc src -d dist", "tsx watch src/index.ts"⟩ ∧
    (packageJson ⟨name, "swc", pm, ri⟩ ver).devDependencies =
      [("@swc/cli", "^0.7.7"), ("@swc/core", "^1.12.9"),
       ("@types/node", "^24.0.10"), ("tsx", "^4.20.3")] :=
  ⟨rfl, rfl, rfl, rfl, rfl, rfl⟩

/-- Claim C6: npm adds zero extra files, pnpm adds exactly `.npmrc` (the
peer-dependency-relaxation config) and `pnpm-workspace.yaml` (the
single-package workspace declaration), and the readme attribution line
names the invocation command of the chosen package manager. -/
theorem package_manager_extras_and_readme (name : String) :
    (getPackageManagerConfig "npm").packageManagerFiles = [] ∧
    (getPackageManagerConfig "pnpm").packageManagerFiles =
      [(".npmrc", "auto-install-peers=true\nstrict-peer-dependencies=false"),
       ("pnpm-workspace.yaml", "packages:\n  - \".\"")] ∧
    readmeContent name "npm" =
      "# " ++ name ++
        "\n\nCreated using [npx init-tp](https://github.com/ge0rg3e/init-tp)" ∧
    readmeContent name "pnpm" =
      "# " ++ name ++
        "\n\nCreated using [pnpx init-tp](https://github.com/ge0rg3e/init-tp)" := by
  refine ⟨rfl, rfl, ?_, ?_⟩ <;>
    simp only [readmeContent, getNpxCommand, String.append_assoc] <;> rfl

/-- Claim C9: when the package manager is one of the two accepted values,
the spawned install command is exactly `npm install` or `pnpm install`;
the `yarn install` and `bun install` branches of the selection chain are
never taken. -/
theorem install_command_npm_or_pnpm (pm : String)
    (h : pm = "npm" ∨ pm = "pnpm") :
    (installCommand pm = "npm install" ∨ installCommand pm = "pnpm install") ∧
    installCommand pm ≠ "yarn install" ∧ installCommand pm ≠ "bun install" := by
  rcases h with h | h <;> subst h
  · exact ⟨Or.inl rfl, by decide, by decide⟩
  · exact ⟨Or.inr rfl, by decide, by decide⟩

theorem installEvents_all_inside (a : Answers) (installFails : Bool)
    (d : List String) : (installEvents a installFails).all (eventInside d) = true := by
  unfold installEvents
  split
  · rw [List.all_append]
    refine Bool.and_eq_true_iff.mpr ⟨rfl, ?_⟩
    split <;> rfl
  · rfl

theorem renderedFiles_all_inside (cwd : List String) (a : Answers)
    (ver : String) :
    (renderedFiles cwd a ver).all
      (fun pc => (cwd ++ [a.projectName]).isPrefixOf pc.1) = true := by
  unfold renderedFiles
  rw [List.all_append, Bool.and_eq_true_iff]
  constructor
  · simp [ List.isPrefixOf_iff_prefix, List.append_assoc, List.prefix_append]
  · rw [List.all_eq_true]
    rintro ⟨p, ct⟩ hm
    rw [List.mem_map] at hm
    obtain ⟨fc, _, heq⟩ := hm
    cases heq
    simp [ List.isPrefixOf_iff_prefix, List.append_assoc, List.prefix_append]

/-- Claim C5: every path the materializer touches (directory creation and
file writes) lies inside the project directory `cwd ++ [projectName]`,
for every resolved configuration. -/
theorem materializer_writes_inside_project_dir (cwd : List String)
    (a : Answers) (ver : String) (installFails : Bool) :
    (runTrace cwd a ver installFails).all
      (eventInside (cwd ++ [a.projectName])) = true := by
  unfold runTrace
  rw [List.all_append, List.all_append, List.all_append,
    Bool.and_eq_true_iff, Bool.and_eq_true_iff, Bool.and_eq_true_iff]
  refine ⟨⟨⟨?_, ?_⟩, installEvents_all_inside a installFails _⟩, ?_⟩
  · simp [eventInside, List.isPrefixOf_iff_prefix, List.append_assoc,
      List.prefix_append]
  · rw [List.all_eq_true]
    intro e he
    rw [List.mem_map] at he
    obtain ⟨pc, hpc, heq⟩ := he
    cases heq
    exact List.all_eq_true.mp (renderedFiles_all_inside cwd a ver) pc hpc
  · split <;> rfl

theorem runTrace_install_fail_split (cwd : List String) (a : Answers)
    (ver : String) (h : a.runInstall = some true) :
    runTrace cwd a ver true =
      ([Event.ensureDir ((cwd ++ [a.projectName]) ++ ["src"])]
        ++ (renderedFiles cwd a ver).map (fun pc => .write pc.1 pc.2)
        ++ [.logMsg ("Running " ++ a.packageManager ++ " install..."),
            .runInstall (installCommand a.packageManager),
            .errorMsg ("Error running " ++ a.packageManager ++ " install:")])
      ++ [.exitCode 1] := by
  unfold runTrace installEvents
  rw [if_pos h, if_pos (⟨h, rfl⟩ : a.runInstall = some true ∧ true = true)]
  simp [List.append_assoc]

/-- Claim C7: when `runInstall` is true and the install subprocess exits
non-zero, the run reports the failure naming the package manager,
terminates with exit code 1, and every rendered file was written before
the install and is never removed (the trace has no removal events). -/
theorem install_failure_reports_and_exits (cwd : List String) (a : Answers)
    (ver : String) (h : a.runInstall = some true) :
    Event.errorMsg ("Error running " ++ a.packageManager ++ " install:")
      ∈ runTrace cwd a ver true ∧
    (runTrace cwd a ver true).getLast? = some (.exitCode 1) ∧
    ∀ pc ∈ renderedFiles cwd a ver,
      Event.write pc.1 pc.2 ∈ runTrace cwd a ver true := by
  refine ⟨?_, ?_, ?_⟩
  · rw [runTrace_install_fail_split cwd a ver h]
    exact List.mem_append_left _ (List.mem_append_right _
      (.tail _ (.tail _ (.head _))))
  · rw [runTrace_install_fail_split cwd a ver h]
    exact List.getLast?_concat _
  · intro pc hpc
    rw [runTrace_install_fail_split cwd a ver h]
    simp only [List.mem_append]
    exact Or.inl (Or.inl (Or.inr (List.mem_map_of_mem _ hpc)))

/-- Witness for C7 at a concrete configuration. -/
theorem install_failure_reports_and_exits_witness :
    Event.errorMsg "Error running npm install:"
      ∈ runTrace [] ⟨"demo", "tsc", "npm", some true⟩ "0.0.6" true ∧
    (runTrace [] ⟨"demo", "tsc", "npm", some true⟩ "0.0.6" true).getLast? =
      some (.exitCode 1) :=
  ⟨(install_failure_reports_and_exits [] ⟨"demo", "tsc", "npm", some true⟩
      "0.0.6" rfl).1,
   (install_failure_reports_and_exits [] ⟨"demo", "tsc", "npm", some true⟩
      "0.0.6" rfl).2.1⟩

/-- Witness for C9 at `npm`. -/
theorem install_command_npm_or_pnpm_witness :
    (installCommand "npm" = "npm install" ∨
      installCommand "npm" = "pnpm install") ∧
    installCommand "npm" ≠ "yarn install" ∧
    installCommand "npm" ≠ "bun install" :=
  install_command_npm_or_pnpm "npm" (Or.inl rfl)

/-- Claim C2: the pipeline asks the `runInstall` question iff `runInstall`
was left unspecified and not both `projectName` and `compiler` were
supplied non-interactively (a supplied value is one that is truthy, i.e.
present and non-empty); and when the question is skipped because both
were supplied while `runInstall` is unspecified, `runInstall` resolves to
`false` (the action's pre-resolution). -/
theorem run_install_question_iff (o : PartialAnswers) (ans : PromptAnswers) :
    (askRunInstall (finalOptions o) = true ↔
      o.runInstall = none ∧
        ¬(jsTruthy o.projectName = true ∧ jsTruthy o.compiler = true)) ∧
    (o.runInstall = none → jsTruthy o.projectName = true →
      jsTruthy o.compiler = true →
      (resolveAnswers (finalOptions o) ans).runInstall = some false) := by
  obtain ⟨pn, c, pm, ri⟩ := o
  constructor
  · cases hp : jsTruthy pn <;> cases hc : jsTruthy c <;> cases ri <;>
      simp [askRunInstall, finalOptions, allOptionsProvided, hp, hc]
  · intro h1 h2 h3
    simp only at h1 h2 h3
    subst h1
    simp [resolveAnswers, finalOptions, allOptionsProvided, askRunInstall,
      h2, h3]

/-- Witness for C2: both fields supplied, `--install` absent, so the
question is skipped and `runInstall` resolves to `false`. -/
theorem run_install_question_iff_witness :
    (resolveAnswers (finalOptions ⟨some "demo", some "tsc", none, none⟩)
        ⟨"demo", "tsc", "npm", true⟩).runInstall = some false :=
  (run_install_question_iff ⟨some "demo", some "tsc", none, none⟩
    ⟨"demo", "tsc", "npm", true⟩).2 rfl rfl rfl

/-- Claim C10: the interactive `runInstall` confirmation defaults to
`true`: whenever the question is asked and the user keeps the default
answer, `runInstall` resolves to `true` and the install subprocess is
spawned; by contrast, on the scripted path (both `projectName` and
`compiler` supplied, `--install` absent) it resolves to `false`. -/
theorem interactive_run_install_defaults_true (cwd : List String)
    (o : PartialAnswers) (ans : PromptAnswers) (ver : String)
    (hask : askRunInstall (finalOptions o) = true)
    (hdef : ans.runInstall = runInstallDefault)
    (hflag : flagError o = none) :
    runInstallDefault = true ∧
    (resolveAnswers (finalOptions o) ans).runInstall = some true ∧
    Event.runInstall
        (installCommand (resolveAnswers (finalOptions o) ans).packageManager)
      ∈ cliTrace cwd o ans ver false ∧
    (∀ o' : PartialAnswers, jsTruthy o'.projectName = true →
      jsTruthy o'.compiler = true → o'.runInstall = none →
      (resolveAnswers (finalOptions o') ans).runInstall = some false) := by
  have hri : (finalOptions o).runInstall = none := by
    rcases hno : (finalOptions o).runInstall with _ | b
    · rfl
    · unfold askRunInstall at hask
      rw [hno] at hask
      simp at hask
  have h2 : (resolveAnswers (finalOptions o) ans).runInstall = some true := by
    unfold resolveAnswers
    simp only [hri, hask, if_true, hdef, runInstallDefault]
  refine ⟨rfl, h2, ?_, ?_⟩
  · unfold cliTrace
    rw [hflag]
    unfold initProjectTrace runTrace installEvents
    rw [if_pos h2]
    refine List.mem_append_right _ (List.mem_append_left _
      (List.mem_append_right _ ?_))
    exact List.mem_append_left _ (.tail _ (.head _))
  · intro o' h1' h2' h3'
    simp [resolveAnswers, finalOptions, allOptionsProvided, h1', h2', h3']

/-- Witness for C10: a fully interactive run that accepts the default. -/
theorem interactive_run_install_defaults_true_witness :
    runInstallDefault = true ∧
    (resolveAnswers (finalOptions ⟨none, none, none, none⟩)
        ⟨"demo", "tsc", "npm", true⟩).runInstall = some true ∧
    Event.runInstall "npm install"
      ∈ cliTrace [] ⟨none, none, none, none⟩ ⟨"demo", "tsc", "npm", true⟩
          "0.0.6" false :=
  ⟨(interactive_run_install_defaults_true [] ⟨none, none, none, none⟩
      ⟨"demo", "tsc", "npm", true⟩ "0.0.6" rfl rfl rfl).1,
   (interactive_run_install_defaults_true [] ⟨none, none, none, none⟩
      ⟨"demo", "tsc", "npm", true⟩ "0.0.6" rfl rfl rfl).2.1,
   (interactive_run_install_defaults_true [] ⟨none, none, none, none⟩
      ⟨"demo", "tsc", "npm", true⟩ "0.0.6" rfl rfl rfl).2.2.1⟩

/-- Counterexample to claim C1 as stated: the project name
`"Bad Name!"` supplied on the command line does not match
`^[a-z0-9-]+$`, yet the run reports no error, exits with no non-zero
status, and writes the project files (partial work is performed). -/
theorem cli_project_name_claim_counterexample :
    nameRegexTest "Bad Name!" = false ∧
    (cliTrace [] ⟨some "Bad Name!", some "tsc", some "npm", none⟩
        ⟨"demo", "tsc", "npm", true⟩ "0.0.6" false).all
      (fun e => match e with
        | .errorMsg _ => false
        | .exitCode _ => false
        | _ => true) = true ∧
    Event.write ["Bad Name!", ".gitignore"] (.text gitignoreContent)
      ∈ cliTrace [] ⟨some "Bad Name!", some "tsc", some "npm", none⟩
          ⟨"demo", "tsc", "npm", true⟩ "0.0.6" false := by
  refine ⟨rfl, ?_, ?_⟩ <;> decide

/-- Claim C1 as amended: a project name supplied via the command line is
never validated — whenever the flag values clear compiler and
package-manager validation, no input error is reported and the run
proceeds to write the project files under the supplied name as-is; the
`^[a-z0-9-]+$` check applies only to the interactive prompt. -/
theorem cli_project_name_unvalidated (cwd : List String) (name : String)
    (c p : Option String) (i : Option Bool) (ans : PromptAnswers)
    (ver : String) (installFails : Bool)
    (hc : compilerFlagPasses c = true)
    (hp : packageManagerFlagPasses p = true) :
    flagError ⟨some name, c, p, i⟩ = none ∧
    Event.write ((cwd ++ [name]) ++ [".gitignore"]) (.text gitignoreContent)
      ∈ cliTrace cwd ⟨some name, c, p, i⟩ ans ver installFails := by
  have hfe : flagError ⟨some name, c, p, i⟩ = none :=
    flagError_eq_none ⟨some name, c, p, i⟩ hc hp
  refine ⟨hfe, ?_⟩
  unfold cliTrace
  rw [hfe]
  unfold initProjectTrace runTrace
  refine List.mem_append_right _ (List.mem_append_left _
    (List.mem_append_left _ (List.mem_append_right _ ?_)))
  unfold renderedFiles
  simp only [List.map_append, List.map_cons, List.map_nil]
  exact List.mem_append_left _
    (.tail _ (.tail _ (.head _)))

/-- Witness for the amended C1 at the invalid name `"Bad Name!"`. -/
theorem cli_project_name_unvalidated_witness :
    flagError ⟨some "Bad Name!", some "tsc", none, none⟩ = none ∧
    Event.write ((["home"] ++ ["Bad Name!"]) ++ [".gitignore"])
        (.text gitignoreContent)
      ∈ cliTrace ["home"] ⟨some "Bad Name!", some "tsc", none, none⟩
          ⟨"demo", "tsc", "npm", true⟩ "0.0.6" false :=
  cli_project_name_unvalidated ["home"] "Bad Name!" (some "tsc") none none
    ⟨"demo", "tsc", "npm", true⟩ "0.0.6" false rfl rfl

/-- Counterexample to claim C3 as stated: the empty string is a flag
value outside `{tsc, esbuild, swc}`, yet it is falsy in JavaScript, so
the action's validation never fires: no error is printed, no exit occurs,
and the compiler question is prompted instead. -/
theorem invalid_flag_claim_counterexample :
    validCompilers.contains "" = false ∧
    flagError ⟨none, some "", none, none⟩ = none ∧
    Event.ask "compiler"
      ∈ cliTrace [] ⟨none, some "", none, none⟩ ⟨"demo", "tsc", "npm", true⟩
          "0.0.6" false ∧
    (cliTrace [] ⟨none, some "", none, none⟩ ⟨"demo", "tsc", "npm", true⟩
        "0.0.6" false).all
      (fun e => match e with
        | .exitCode _ => false
        | _ => true) = true := by
  refine ⟨rfl, rfl, ?_, ?_⟩ <;> decide

/-- Claim C3 as amended: every *non-empty* flag value for the compiler
outside `{tsc, esbuild, swc}`, and every non-empty flag value for the
package manager outside `{npm, pnpm}` (with a compiler flag that clears
validation), makes the whole run consist of exactly the descriptive error
naming the value followed by `process.exit(1)` — so before any prompting,
directory creation or file I/O; an empty flag value is instead treated as
absent and prompts. -/
theorem invalid_flag_rejected_before_io (cwd : List String)
    (pn : Option String) (c p : Option String) (i : Option Bool)
    (ans : PromptAnswers) (ver : String) (installFails : Bool) :
    (∀ v : String, v ≠ "" → validCompilers.contains v = false →
      cliTrace cwd ⟨pn, some v, p, i⟩ ans ver installFails =
        [.errorMsg (invalidCompilerMsg v), .exitCode 1]) ∧
    (∀ w : String, w ≠ "" → validPackageManagers.contains w = false →
      compilerFlagPasses c = true →
      cliTrace cwd ⟨pn, c, some w, i⟩ ans ver installFails =
        [.errorMsg (invalidPackageManagerMsg w), .exitCode 1]) := by
  constructor
  · intro v hne hout
    have hne' : v.isEmpty = false := by
      rcases hempty : v.isEmpty
      · rfl
      · exact absurd ((String.isEmpty_iff v).mp hempty) hne
    have hout' : v ∉ validCompilers := by simpa using hout
    have hcond : (jsTruthy (some v)
        && !(validCompilers.contains ((some v).getD ""))) = true := by
      simp [jsTruthy, hne', hout']
    have : flagError ⟨pn, some v, p, i⟩ = some (invalidCompilerMsg v) := by
      unfold flagError
      rw [if_pos hcond]
      rfl
    unfold cliTrace
    rw [this]
  · intro w hne hout hcp
    have hne' : w.isEmpty = false := by
      rcases hempty : w.isEmpty
      · rfl
      · exact absurd ((String.isEmpty_iff w).mp hempty) hne
    have h1 : (jsTruthy c && !(validCompilers.contains (c.getD ""))) = false := by
      unfold compilerFlagPasses at hcp
      rcases Bool.or_eq_true_iff.mp hcp with h | h
      · have hf : jsTruthy c = false := by simpa using h
        simp [hf]
      · have hm : c.getD "" ∈ validCompilers := by simpa using h
        simp [hm]
    have hout' : w ∉ validPackageManagers := by simpa using hout
    have h2 : (jsTruthy (some w)
        && !(validPackageManagers.contains ((some w).getD ""))) = true := by
      simp [jsTruthy, hne', hout']
    have : flagError ⟨pn, c, some w, i⟩ = some (invalidPackageManagerMsg w) := by
      unfold flagError
      rw [if_neg (by rw [h1]; simp), if_pos h2]
      rfl
    unfold cliTrace
    rw [this]

/-- Witness for the amended C3 at `--compiler rustc` and
`--package-manager yarn`. -/
theorem invalid_flag_rejected_before_io_witness :
    cliTrace [] ⟨none, some "rustc", none, none⟩ ⟨"demo", "tsc", "npm", true⟩
        "0.0.6" false =
      [.errorMsg (invalidCompilerMsg "rustc"), .exitCode 1] ∧
    cliTrace [] ⟨none, none, some "yarn", none⟩ ⟨"demo", "tsc", "npm", true⟩
        "0.0.6" false =
      [.errorMsg (invalidPackageManagerMsg "yarn"), .exitCode 1] :=
  ⟨(invalid_flag_rejected_before_io [] none none none none
      ⟨"demo", "tsc", "npm", true⟩ "0.0.6" false).1 "rustc"
      (by decide) (by decide),
   (invalid_flag_rejected_before_io [] none none none none
      ⟨"demo", "tsc", "npm", true⟩ "0.0.6" false).2 "yarn"
      (by decide) (by decide) (by decide)⟩

end InitTp
